import Mathlib

set_option maxHeartbeats 1000000

/-!
Shallow embedding of the reconciliation core of `scripts/create_awx_templates.py`
and the survey builder of `scripts/update_awx_k3s_app_survey.py`.

Dynamic YAML/JSON values are modelled by the `Yaml` inductive; Python
exceptions are modelled by `Except String`; the remote AWX service is
modelled at its interface boundary by a `RemoteState` value holding the
job templates, the next fresh id, and the credential links, with
credential-link failures injected through a `linkOk` oracle.
-/

/-- Dynamic values as produced by `yaml.safe_load`.  Floats are omitted
(no claim involves them) and mapping keys are strings, modelling the
Python dicts these scripts consume; keys of a parsed mapping are unique. -/
inductive Yaml where
  | null
  | bool (b : Bool)
  | int (n : Int)
  | str (s : String)
  | list (xs : List Yaml)
  | map (kvs : List (String × Yaml))

/-- Python truthiness of a `Yaml` value: `not x` in Python is
`x.isFalsy` here (None, False, 0, empty string, empty list, empty dict). -/
def Yaml.isFalsy : Yaml → Bool
  | .null => true
  | .bool b => !b
  | .int n => n == 0
  | .str s => s == ""
  | .list xs => xs.isEmpty
  | .map kvs => kvs.isEmpty

/-- Dictionary lookup, `d.get(k)` / `k in d` on a Python dict modelled as an
association list with unique keys. -/
def dictGet : List (String × Yaml) → String → Option Yaml
  | [], _ => none
  | (k, v) :: rest, key => if k = key then some v else dictGet rest key

/-- Accumulator pass extracting the final `/`-separated component of a path. -/
def pathNameAux : List Char → List Char → List Char
  | acc, [] => acc
  | acc, c :: rest => if c = '/' then pathNameAux [] rest else pathNameAux (acc ++ [c]) rest

/-- Models `pathlib.Path(p).name` for paths without a trailing separator
(the only paths these scripts build). -/
def pathName (p : String) : String := ⟨pathNameAux [] p.data⟩

/-- Index of the last `.` in a list of characters, if any (Python `str.rfind`). -/
def rfindDotAux : List Char → Nat → Option Nat → Option Nat
  | [], _, best => best
  | c :: rest, i, best => rfindDotAux rest (i + 1) (if c = '.' then some i else best)

/-- Last index of a dot, `name.rfind('.')` with `none` for -1. -/
def rfindDot (nm : List Char) : Option Nat := rfindDotAux nm 0 none

/-- Models `pathlib.Path(p).stem`: the final component without its last
suffix; per CPython the suffix only exists when the last dot sits strictly
inside the name (`0 < i < len(name) - 1`). -/
def pathStem (p : String) : String :=
  let nm := (pathName p).data
  match rfindDot nm with
  | some i => if 0 < i && i < nm.length - 1 then ⟨nm.take i⟩ else ⟨nm⟩
  | none => ⟨nm⟩

/-- One pass of Python `str.title()`: an alphabetic character is uppercased
when the previous character was not alphabetic, lowercased otherwise
(ASCII model of the cased-character classes). -/
def titleAux : Bool → List Char → List Char
  | _, [] => []
  | prevCased, c :: rest =>
    (if c.isAlpha then (if prevCased then c.toLower else c.toUpper) else c) :: titleAux c.isAlpha rest

/-- Models Python `s.title()`. -/
def pyTitle (s : String) : String := ⟨titleAux false s.data⟩

/-- The fallback template name of `build_template_data`:
`Path(filepath).stem.replace('_', ' ').title()`. -/
def derivedName (filepath : String) : String :=
  pyTitle ⟨(pathStem filepath).data.map (fun c => if c = '_' then ' ' else c)⟩

/-- Python `sep.join(xs)`. -/
def joinSep (sep : String) : List String → String
  | [] => ""
  | [x] => x
  | x :: y :: rest => x ++ sep ++ joinSep sep (y :: rest)

/-- Is `needle` a contiguous substring, Python `needle in hay` on strings. -/
def infixAux (needle : List Char) : List Char → Bool
  | [] => needle.isEmpty
  | c :: rest => needle.isPrefixOf (c :: rest) || infixAux needle rest

/-- Substring containment test on strings (`needle in hay` in Python). -/
def strContainsSub (hay needle : String) : Bool := infixAux needle.data hay.data

/-- Python `s.endswith(suffix)`. -/
def strEndsWith (s sfx : String) : Bool := List.isSuffixOf sfx.data s.data

/-- The fixed allow-list `var_keys` of `PlaybookParser.extract_extra_vars`. -/
def var_keys : List String :=
  ["k3s_context", "esphome_namespace", "esphome_deployment_name", "esphome_timeout", "esphome_no_logs"]

/-- The mapping case of `extract_extra_vars`: walk `var_keys` in order and
keep each key bound in the source dict, value untouched. -/
def projectVars (kvs : List (String × Yaml)) : List (String × Yaml) :=
  var_keys.foldl
    (fun acc key =>
      match dictGet kvs key with
      | some v => acc ++ [(key, v)]
      | none => acc)
    []

/-- Models `PlaybookParser.extract_extra_vars(playbook_vars)`.  The non-dict
branches model Python `key in playbook_vars` followed by `playbook_vars[key]`:
on a list, membership compares elements for equality and a hit raises
TypeError at the indexing; on a string, membership is a substring test and a
hit raises TypeError at the indexing; other types are not iterable. -/
def extract_extra_vars (playbook_vars : Yaml) : Except String (List (String × Yaml)) :=
  match playbook_vars with
  | .map kvs => Except.ok (projectVars kvs)
  | .list xs =>
      if var_keys.any (fun key => xs.any (fun y => match y with | .str s2 => s2 == key | _ => false))
      then Except.error "TypeError: list indices must be integers"
      else Except.ok []
  | .str s =>
      if var_keys.any (fun key => strContainsSub s key)
      then Except.error "TypeError: string indices must be integers"
      else Except.ok []
  | _ => Except.error "TypeError: argument is not iterable"

/-- Models `', '.join(patterns)` on a YAML list: every item must be a string
or Python raises TypeError. -/
def yamlStrList : List Yaml → Except String (List String)
  | [] => Except.ok []
  | .str s :: rest => do
      let r ← yamlStrList rest
      Except.ok (s :: r)
  | _ :: _ => Except.error "TypeError: sequence item is not a str"

/-- The loop body of `generate_description`: for every key ending in
`_patterns` whose value is a list, one `Patterns: ...` segment, in the
iteration order of the vars dict. -/
def patternSegments : List (String × Yaml) → Except String (List String)
  | [] => Except.ok []
  | (key, v) :: rest =>
      if strEndsWith key "_patterns" then
        match v with
        | .list xs => do
            let items ← yamlStrList xs
            let segs ← patternSegments rest
            Except.ok (("Patterns: " ++ joinSep ", " items) :: segs)
        | _ => patternSegments rest
      else patternSegments rest

/-- Models `PlaybookParser.generate_description(playbook_name, playbook_vars)`:
`" | ".join([playbook_name] + segments)`.  A non-dict vars value raises
AttributeError at `.keys()`; a non-string name raises TypeError at the
final join (desc_parts item 0). -/
def generate_description (playbook_name : Yaml) (playbook_vars : Yaml) : Except String String :=
  match playbook_vars with
  | .map kvs =>
      match patternSegments kvs with
      | .error e => .error e
      | .ok segs =>
          match playbook_name with
          | .str s => Except.ok (joinSep " | " (s :: segs))
          | _ => Except.error "TypeError: sequence item 0 is not a str"
  | _ => Except.error "AttributeError: object has no attribute keys"

/-- Insert a key-value pair into a list sorted by key (PyYAML sorts dict
keys when dumping, `sort_keys=True` default). -/
def insertByKey (kv : String × Yaml) : List (String × Yaml) → List (String × Yaml)
  | [] => [kv]
  | kv2 :: rest => if kv.1 ≤ kv2.1 then kv :: kv2 :: rest else kv2 :: insertByKey kv rest

/-- Sort an association list by key. -/
def sortByKey : List (String × Yaml) → List (String × Yaml)
  | [] => []
  | kv :: rest => insertByKey kv (sortByKey rest)

/-- Scalar rendering used by `yamlDump`; non-scalar values are not modelled
(no claim exercises them). -/
def yamlScalar : Yaml → String
  | .null => "null"
  | .bool b => if b then "true" else "false"
  | .int n => toString n
  | .str s => s
  | .list _ => ""
  | .map _ => ""

/-- Concatenation of a list of strings. -/
def strConcat (xs : List String) : String := xs.foldl (fun a b => a ++ b) ""

/-- Models `yaml.dump(d, default_flow_style=False)` restricted to flat
mappings with scalar values: keys sorted, one `key: value` line each,
`{}\n` for the empty dict. -/
def yamlDump (kvs : List (String × Yaml)) : String :=
  if kvs.isEmpty then "{}\n"
  else strConcat ((sortByKey kvs).map (fun kv => kv.1 ++ ": " ++ yamlScalar kv.2 ++ "\n"))

/-- The metadata record returned by `PlaybookParser.parse_playbook` (the
non-empty case): the raw YAML values of the first play plus the file path. -/
structure PlaybookMeta where
  name : Yaml
  hosts : Yaml
  vars : Yaml
  filepath : String

/-- Models `PlaybookParser.parse_playbook` on the already-loaded document.
`Except.ok none` is the `{}` return (document falsy or not a list — note a
non-empty list is never falsy, so the guard reduces to the cons match);
a first element without `.get` (not a mapping) raises AttributeError.
The relative-path computation against the working directory is external
input, passed in as `relPath`. -/
def parse_playbook (doc : Yaml) (relPath : String) : Except String (Option PlaybookMeta) :=
  match doc with
  | .list (play :: _) =>
      match play with
      | .map kvs =>
          Except.ok (some {
            name := (dictGet kvs "name").getD (Yaml.str ""),
            hosts := (dictGet kvs "hosts").getD (Yaml.str "localhost"),
            vars := (dictGet kvs "vars").getD (Yaml.map []),
            filepath := relPath })
      | _ => Except.error "AttributeError: object has no attribute get"
  | _ => Except.ok none

/-- The CONFIG values consumed by `build_template_data`, after environment
parsing and the `int(...)` conversions; a `none` optional models the falsy
empty-string default. -/
structure Config where
  inventory_id : Int
  project_id : Int
  credential_id : Option Int
  execution_environment_id : Option Int

/-- The job-template payload dict built by `build_template_data`.  The three
optional fields model dict keys that are only conditionally inserted. -/
structure TemplateData where
  name : String
  description : String
  job_type : String
  inventory : Int
  project : Int
  playbook : String
  ask_variables_on_launch : Bool
  extra_vars : String
  credentials : Option (List Int)
  execution_environment : Option Int
  ask_limit_on_launch : Option Bool
deriving DecidableEq

/-- Models `build_template_data(playbook_meta, config)`.  The wildcard branch
of the name computation covers non-string play names: falsy ones get the
derived name exactly as in Python, and truthy non-string names make
`generate_description` below raise before the record is ever returned, so
the branch value is never observable. -/
def build_template_data (playbook_meta : PlaybookMeta) (config : Config) :
    Except String TemplateData :=
  let template_name : String :=
    match playbook_meta.name with
    | .str s => if s = "" then derivedName playbook_meta.filepath else s
    | _ => derivedName playbook_meta.filepath
  match extract_extra_vars playbook_meta.vars with
  | .error e => .error e
  | .ok extra_vars =>
    match generate_description playbook_meta.name playbook_meta.vars with
    | .error e => .error e
    | .ok description =>
      Except.ok {
    name := template_name,
    description := description,
    job_type := "run",
    inventory := config.inventory_id,
    project := config.project_id,
    playbook := playbook_meta.filepath,
    ask_variables_on_launch := true,
    extra_vars := yamlDump extra_vars,
    credentials := config.credential_id.map (fun c => [c]),
    execution_environment := config.execution_environment_id,
    ask_limit_on_launch :=
      if strContainsSub playbook_meta.filepath "target_device" || strContainsSub playbook_meta.filepath "all"
      then some false else none }

/-- One job template held by the remote service. -/
structure RemoteTemplate where
  id : Nat
  data : TemplateData
deriving DecidableEq

/-- The remote AWX state at the RemoteClient boundary: stored templates, the
next fresh id, and the template-credential association table. -/
structure RemoteState where
  templates : List RemoteTemplate
  nextId : Nat
  links : List (Nat × Int)
deriving DecidableEq

/-- Models `get_template(name)`: `GET /job_templates/?name=...`, first match
by exact name or none. -/
def RemoteState.findByName (s : RemoteState) (name : String) : Option RemoteTemplate :=
  s.templates.find? (fun t => t.data.name == name)

/-- Models `create_template`: `POST /job_templates/` stores the payload under
a fresh id and returns the stored resource. -/
def RemoteState.createTemplate (s : RemoteState) (payload : TemplateData) :
    RemoteState × RemoteTemplate :=
  let t : RemoteTemplate := { id := s.nextId, data := payload }
  ({ s with templates := s.templates ++ [t], nextId := s.nextId + 1 }, t)

/-- Models `update_template`: `PATCH /job_templates/{id}/` replaces the sent
fields of the stored resource and returns it. -/
def RemoteState.updateTemplate (s : RemoteState) (tid : Nat) (payload : TemplateData) :
    RemoteState × RemoteTemplate :=
  ({ s with templates := s.templates.map (fun t => if t.id = tid then { id := t.id, data := payload } else t) },
   { id := tid, data := payload })

/-- Models `associate_credentials`: one `POST /job_templates/{id}/credentials/`
per credential, each wrapped in its own try/except, so a failing link
(`linkOk` false) is skipped with a warning and the loop continues. -/
def associate_credentials (linkOk : Nat → Int → Bool) (s : RemoteState) (template_id : Nat)
    (credential_ids : List Int) : RemoteState :=
  credential_ids.foldl
    (fun st cred_id =>
      if linkOk template_id cred_id then { st with links := st.links ++ [(template_id, cred_id)] }
      else st)
    s

/-- Which branch `create_or_update_template` took, i.e. which of the two
progress lines it printed. -/
inductive ReconcileAction where
  | created
  | updated
deriving DecidableEq

/-- Models `create_or_update_template(template_data)`: pop `credentials`,
query by name, PATCH the existing resource or POST a new one, then
associate the popped credentials (only when the popped value is truthy)
against the existing id or the id of the create response. -/
def create_or_update_template (linkOk : Nat → Int → Bool) (s : RemoteState)
    (template_data : TemplateData) : RemoteState × RemoteTemplate × ReconcileAction :=
  let credentials := template_data.credentials
  let body : TemplateData := { template_data with credentials := none }
  match s.findByName template_data.name with
  | some ex =>
      let p := s.updateTemplate ex.id body
      let s2 :=
        match credentials with
        | some (c :: cs) => associate_credentials linkOk p.1 ex.id (c :: cs)
        | _ => p.1
      (s2, p.2, ReconcileAction.updated)
  | none =>
      let p := s.createTemplate body
      let s2 :=
        match credentials with
        | some (c :: cs) => associate_credentials linkOk p.1 p.2.id (c :: cs)
        | _ => p.1
      (s2, p.2, ReconcileAction.created)

/-- The run summary accumulated by `main`. -/
structure RunResults where
  created : List String
  updated : List String
  failed : List String
deriving DecidableEq

/-- Models one iteration of the per-playbook loop in `main`, after the
document has been loaded: parse, skip on falsy name, build, reconcile, then
classify via the re-query `get_template(name)` the code performs after the
create/update; any raised exception lands the file name in `failed`.
Remote find/create/update are modelled as succeeding (the claims under
audit concern the success path and credential-link failures). -/
def process_playbook (linkOk : Nat → Int → Bool) (config : Config) (s : RemoteState)
    (results : RunResults) (doc : Yaml) (path : String) : RemoteState × RunResults :=
  match parse_playbook doc path with
  | .error _ => (s, { results with failed := results.failed ++ [pathName path] })
  | .ok none => (s, results)
  | .ok (some meta) =>
      if meta.name.isFalsy then (s, results)
      else
        match build_template_data meta config with
        | .error _ => (s, { results with failed := results.failed ++ [pathName path] })
        | .ok template_data =>
            let p := create_or_update_template linkOk s template_data
            if p.2.1.id ≠ 0 then
              if (p.1.findByName template_data.name).isSome then
                (p.1, { results with updated := results.updated ++ [template_data.name] })
              else
                (p.1, { results with created := results.created ++ [template_data.name] })
            else (p.1, results)

/-- One survey question as built by `build_survey_spec`.  The source dict
keys `type` and `variable` are Lean keywords, rendered here as `qtype` and
`variableName`. -/
structure SurveyQuestion where
  question_name : String
  question_description : String
  required : Bool
  qtype : String
  variableName : String
  min : Option Int
  max : Option Int
  default : String
  choices : List String
  new_question : Bool
deriving DecidableEq

/-- The survey specification pushed to `/survey_spec/`. -/
structure SurveySpec where
  name : String
  description : String
  spec : List SurveyQuestion
deriving DecidableEq

/-- Models `build_survey_spec(applications)` of
`update_awx_k3s_app_survey.py`: `sorted(applications.keys())` as the choice
list of a single required multiplechoice question bound to `app_name`. -/
def build_survey_spec (applications : List (String × Yaml)) : SurveySpec :=
  let app_names := List.insertionSort (· ≤ ·) (applications.map Prod.fst)
  { name := "K3s Application Update Survey",
    description := "Select which K3s application to update",
    spec := [{
      question_name := "Application Name",
      question_description := "Which application do you want to update?",
      required := true,
      qtype := "multiplechoice",
      variableName := "app_name",
      min := none,
      max := none,
      default := "",
      choices := app_names,
      new_question := true }] }

/-- A link-oracle under which every credential association succeeds. -/
def lkAll : Nat → Int → Bool := fun _ _ => true

/-- A minimal configuration used by the concrete scenarios. -/
def cfg0 : Config :=
  { inventory_id := 1, project_id := 1, credential_id := none, execution_environment_id := none }

/-- The empty remote state (fresh ids start at 1, as AWX ids do). -/
def rs0 : RemoteState := { templates := [], nextId := 1, links := [] }

/-- The empty run summary. -/
def rr0 : RunResults := { created := [], updated := [], failed := [] }

/-- The C1 end-to-end scenario variables:
`{esphome_timeout: 30, device_patterns: [a, b]}`. -/
def c1vars : Yaml :=
  Yaml.map [("esphome_timeout", Yaml.int 30), ("device_patterns", Yaml.list [Yaml.str "a", Yaml.str "b"])]

/-- The C1 end-to-end scenario descriptor: empty name, path `flash_all.yaml`. -/
def c1meta : PlaybookMeta :=
  { name := Yaml.str "", hosts := Yaml.str "localhost", vars := c1vars, filepath := "flash_all.yaml" }

/-- A descriptor document whose first play has no `name` key. -/
def c2doc : Yaml := Yaml.list [Yaml.map [("hosts", Yaml.str "localhost")]]

/-- A well-formed descriptor document declaring the name `Flash Devices`. -/
def c3doc : Yaml :=
  Yaml.list [Yaml.map [("name", Yaml.str "Flash Devices"), ("hosts", Yaml.str "localhost")]]

/-- The metadata `parse_playbook` extracts from `c3doc`. -/
def c3meta : PlaybookMeta :=
  { name := Yaml.str "Flash Devices", hosts := Yaml.str "localhost", vars := Yaml.map [],
    filepath := "flash_devices.yaml" }

/-- The template payload `build_template_data` builds from `c3meta` under `cfg0`. -/
def c3td : TemplateData where
  name := "Flash Devices"
  description := "Flash Devices"
  job_type := "run"
  inventory := 1
  project := 1
  playbook := "flash_devices.yaml"
  ask_variables_on_launch := true
  extra_vars := "{}\n"
  credentials := none
  execution_environment := none
  ask_limit_on_launch := none

/-- A desired resource carrying two credential references. -/
def td4 : TemplateData where
  name := "T"
  description := ""
  job_type := "run"
  inventory := 1
  project := 1
  playbook := "x.yaml"
  ask_variables_on_launch := true
  extra_vars := "{}\n"
  credentials := some [5, 7]
  execution_environment := none
  ask_limit_on_launch := none

/-- A link-oracle under which associating credential 5 fails and credential 7 succeeds. -/
def lkFail5 : Nat → Int → Bool := fun _ c => c == 7

/-- A descriptor with a non-empty declared name. -/
def c7aMeta : PlaybookMeta :=
  { name := Yaml.str "Flash", hosts := Yaml.str "localhost", vars := Yaml.map [], filepath := "x.yaml" }

/-- The template built from `c7aMeta` under `cfg0`. -/
def c7aTd : TemplateData where
  name := "Flash"
  description := "Flash"
  job_type := "run"
  inventory := 1
  project := 1
  playbook := "x.yaml"
  ask_variables_on_launch := true
  extra_vars := "{}\n"
  credentials := none
  execution_environment := none
  ask_limit_on_launch := none

/-- A descriptor with an empty declared name at path `a_b_c.yaml`. -/
def c7bMeta : PlaybookMeta :=
  { name := Yaml.str "", hosts := Yaml.str "localhost", vars := Yaml.map [], filepath := "a_b_c.yaml" }

/-- The template built from `c7bMeta` under `cfg0`. -/
def c7bTd : TemplateData where
  name := "A B C"
  description := ""
  job_type := "run"
  inventory := 1
  project := 1
  playbook := "a_b_c.yaml"
  ask_variables_on_launch := true
  extra_vars := "{}\n"
  credentials := none
  execution_environment := none
  ask_limit_on_launch := none

/-- A concrete mapping containing one allow-listed key and one stray key. -/
def c6kvs : List (String × Yaml) := [("esphome_timeout", Yaml.int 30), ("evil_key", Yaml.str "x")]

/-- The survey question built from the two-application inventory `zeta, alpha`. -/
def c10q : SurveyQuestion where
  question_name := "Application Name"
  question_description := "Which application do you want to update?"
  required := true
  qtype := "multiplechoice"
  variableName := "app_name"
  min := none
  max := none
  default := ""
  choices := ["alpha", "zeta"]
  new_question := true

/-- The survey question built from an empty inventory. -/
def c10qe : SurveyQuestion where
  question_name := "Application Name"
  question_description := "Which application do you want to update?"
  required := true
  qtype := "multiplechoice"
  variableName := "app_name"
  min := none
  max := none
  default := ""
  choices := []
  new_question := true

theorem dictGet_mem {kvs : List (String × Yaml)} {k : String} {v : Yaml}
    (h : dictGet kvs k = some v) : (k, v) ∈ kvs := by
  induction kvs with
  | nil => exact Option.noConfusion h
  | cons kv rest ih =>
      obtain ⟨k2, v2⟩ := kv
      by_cases he : k2 = k
      · subst he
        rw [dictGet, if_pos rfl] at h
        injection h with h
        subst h
        exact List.mem_cons_self _ _
      · rw [dictGet, if_neg he] at h
        exact List.mem_cons_of_mem _ (ih h)

theorem foldl_project_mem (kvs : List (String × Yaml)) (keys : List String) :
    ∀ (acc : List (String × Yaml)) (kv : String × Yaml),
      kv ∈ keys.foldl
        (fun acc key =>
          match dictGet kvs key with
          | some v => acc ++ [(key, v)]
          | none => acc) acc →
      kv ∈ acc ∨ (kv.1 ∈ keys ∧ dictGet kvs kv.1 = some kv.2) := by
  induction keys with
  | nil => exact fun acc kv h => Or.inl h
  | cons key rest ih =>
      intro acc kv h
      rw [List.foldl_cons] at h
      cases hd : dictGet kvs key with
      | some v =>
          rw [hd] at h
          rcases ih _ kv h with hin | ⟨hk, hg⟩
          · rcases List.mem_append.mp hin with h1 | h2
            · exact Or.inl h1
            · rw [List.mem_singleton] at h2
              subst h2
              exact Or.inr ⟨List.mem_cons_self _ _, hd⟩
          · exact Or.inr ⟨List.mem_cons_of_mem _ hk, hg⟩
      | none =>
          rw [hd] at h
          rcases ih _ kv h with hin | ⟨hk, hg⟩
          · exact Or.inl hin
          · exact Or.inr ⟨List.mem_cons_of_mem _ hk, hg⟩

theorem generate_description_ok_str (nm vars : Yaml) (d : String)
    (h : generate_description nm vars = Except.ok d) : ∃ s, nm = Yaml.str s := by
  cases vars with
  | map kvs =>
      rw [generate_description] at h
      cases hp : patternSegments kvs with
      | error e => rw [hp] at h; exact Except.noConfusion h
      | ok segs =>
          rw [hp] at h
          cases nm with
          | str s => exact ⟨s, rfl⟩
          | null => exact Except.noConfusion h
          | bool b => exact Except.noConfusion h
          | int n => exact Except.noConfusion h
          | list xs => exact Except.noConfusion h
          | map kvs2 => exact Except.noConfusion h
  | null => exact Except.noConfusion h
  | bool b => exact Except.noConfusion h
  | int n => exact Except.noConfusion h
  | str s => exact Except.noConfusion h
  | list xs => exact Except.noConfusion h

theorem build_template_data_name (meta : PlaybookMeta) (cfg : Config) (td : TemplateData)
    (s : String) (hn : meta.name = Yaml.str s)
    (hb : build_template_data meta cfg = Except.ok td) :
    td.name = if s = "" then derivedName meta.filepath else s := by
  unfold build_template_data at hb
  rw [hn] at hb
  cases hx : extract_extra_vars meta.vars with
  | error e => rw [hx] at hb; exact Except.noConfusion hb
  | ok ev =>
      rw [hx] at hb
      cases hd : generate_description (Yaml.str s) meta.vars with
      | error e => rw [hd] at hb; exact Except.noConfusion hb
      | ok d =>
          rw [hd] at hb
          injection hb with hb
          rw [← hb]

theorem build_template_data_name_str (meta : PlaybookMeta) (cfg : Config) (td : TemplateData)
    (hb : build_template_data meta cfg = Except.ok td) : ∃ nm, meta.name = Yaml.str nm := by
  unfold build_template_data at hb
  cases hx : extract_extra_vars meta.vars with
  | error e => rw [hx] at hb; exact Except.noConfusion hb
  | ok ev =>
      rw [hx] at hb
      cases hd : generate_description meta.name meta.vars with
      | error e => rw [hd] at hb; exact Except.noConfusion hb
      | ok d => exact generate_description_ok_str _ _ _ hd

/-- C1 counterexample: on the end-to-end scenario descriptor (empty name,
vars `{esphome_timeout: 30, device_patterns: [a, b]}`, path
`flash_all.yaml`), the built description is " | Patterns: a, b" and not
"Flash All | Patterns: a, b" as the claim states, because
`build_template_data` passes the raw (empty) play name to
`generate_description`, not the derived template name. -/
theorem c1_counterexample :
    (build_template_data c1meta cfg0).map TemplateData.description =
      Except.ok " | Patterns: a, b" ∧
    " | Patterns: a, b" ≠ "Flash All | Patterns: a, b" :=
  ⟨rfl, by decide⟩

/-- C1 (amended): for the end-to-end scenario descriptor, and any
configuration, the built resource has name "Flash All", description
" | Patterns: a, b", extra-variables payload `{esphome_timeout: 30}`
(serialized as "esphome_timeout: 30\n"), and `ask_limit_on_launch = false`
because the path contains "all". -/
theorem c1_end_to_end (cfg : Config) :
    extract_extra_vars c1vars = Except.ok [("esphome_timeout", Yaml.int 30)] ∧
    (build_template_data c1meta cfg).map
        (fun td => (td.name, td.description, td.extra_vars, td.ask_limit_on_launch)) =
      Except.ok ("Flash All", " | Patterns: a, b", "esphome_timeout: 30\n", some false) :=
  ⟨rfl, rfl⟩

/-- C6: for every input variables mapping, `extract_extra_vars` succeeds and
emits only keys from the fixed five-key allow-list; every emitted binding is
a binding of the source mapping (key present, value untransformed); and the
result may be empty. -/
theorem c6_extract_allowlist (kvs out : List (String × Yaml))
    (h : extract_extra_vars (Yaml.map kvs) = Except.ok out) :
    var_keys = ["k3s_context", "esphome_namespace", "esphome_deployment_name",
                "esphome_timeout", "esphome_no_logs"] ∧
    (∀ kv ∈ out, kv.1 ∈ var_keys ∧ kv ∈ kvs) ∧
    extract_extra_vars (Yaml.map []) = Except.ok [] := by
  refine ⟨rfl, ?_, rfl⟩
  have hout : out = projectVars kvs := by
    rw [extract_extra_vars] at h
    injection h with h
    exact h.symm
  subst hout
  intro kv hm
  rcases foldl_project_mem kvs var_keys [] kv hm with h1 | ⟨hk, hg⟩
  · exact absurd h1 (List.not_mem_nil kv)
  · exact ⟨hk, dictGet_mem hg⟩

/-- Witness for C6 at the concrete mapping `c6kvs`: the binding
`esphome_timeout ↦ 30` is emitted, its key is allow-listed, the stray key is
dropped, and the empty mapping projects to the empty payload. -/
theorem c6_extract_allowlist_witness :
    (("esphome_timeout", Yaml.int 30).1 ∈ var_keys ∧
      ("esphome_timeout", Yaml.int 30) ∈ c6kvs) ∧
    extract_extra_vars (Yaml.map []) = Except.ok [] := by
  have h := c6_extract_allowlist c6kvs [("esphome_timeout", Yaml.int 30)] rfl
  exact ⟨h.2.1 ("esphome_timeout", Yaml.int 30) (List.mem_singleton.mpr rfl), h.2.2⟩

/-- C7: when the declared play name is the string `s`, the built resource is
named `s` exactly whenever `s` is non-empty; when `s` is empty the name is
derived from the source path (final segment, underscores to spaces,
title-cased), and in particular path `a_b_c.yaml` yields "A B C". -/
theorem c7_template_name (meta : PlaybookMeta) (cfg : Config) (td : TemplateData) (s : String)
    (hn : meta.name = Yaml.str s) (hb : build_template_data meta cfg = Except.ok td) :
    (s ≠ "" → td.name = s) ∧
    (s = "" → td.name = derivedName meta.filepath) ∧
    (s = "" → meta.filepath = "a_b_c.yaml" → td.name = "A B C") := by
  have h := build_template_data_name meta cfg td s hn hb
  refine ⟨?_, ?_, ?_⟩
  · intro hne; rw [h, if_neg hne]
  · intro he; rw [h, if_pos he]
  · intro he hf; rw [h, if_pos he, hf]; exact rfl

/-- Witness for C7: the non-empty declared name "Flash" is kept verbatim,
and the empty-name descriptor at `a_b_c.yaml` is named "A B C". -/
theorem c7_template_name_witness :
    build_template_data c7aMeta cfg0 = Except.ok c7aTd ∧ c7aTd.name = "Flash" ∧
    build_template_data c7bMeta cfg0 = Except.ok c7bTd ∧ c7bTd.name = "A B C" := by
  refine ⟨rfl, ?_, rfl, ?_⟩
  · exact (c7_template_name c7aMeta cfg0 c7aTd "Flash" rfl rfl).1 (by decide)
  · exact (c7_template_name c7bMeta cfg0 c7bTd "" rfl rfl).2.2 rfl rfl

/-- C8: when the first play of a parsed descriptor lacks the `name`, `hosts`
and `vars` keys, `parse_playbook` returns hosts defaulted to "localhost",
vars defaulted to the empty mapping, and the name propagated as the empty
string with no derived-name defaulting. -/
theorem c8_parse_defaults (kvs : List (String × Yaml)) (rest : List Yaml) (path : String)
    (h1 : dictGet kvs "name" = none) (h2 : dictGet kvs "hosts" = none)
    (h3 : dictGet kvs "vars" = none) :
    parse_playbook (Yaml.list (Yaml.map kvs :: rest)) path =
      Except.ok (some { name := Yaml.str "", hosts := Yaml.str "localhost",
                        vars := Yaml.map [], filepath := path }) := by
  rw [parse_playbook, h1, h2, h3]; exact rfl

/-- Witness for C8 at a concrete play carrying only a stray key. -/
theorem c8_parse_defaults_witness :
    parse_playbook (Yaml.list [Yaml.map [("junk", Yaml.int 1)]]) "p.yaml" =
      Except.ok (some { name := Yaml.str "", hosts := Yaml.str "localhost",
                        vars := Yaml.map [], filepath := "p.yaml" }) :=
  c8_parse_defaults [("junk", Yaml.int 1)] [] "p.yaml" rfl rfl rfl

/-- C9 counterexample: the document `[hello]` is a sequence but not a
sequence of mappings; `parse_playbook` raises (AttributeError at
`play.get`) instead of returning the empty result the claim promises. -/
theorem c9_counterexample :
    parse_playbook (Yaml.list [Yaml.str "hello"]) "p.yaml" =
      Except.error "AttributeError: object has no attribute get" ∧
    parse_playbook (Yaml.list [Yaml.str "hello"]) "p.yaml" ≠ Except.ok none :=
  ⟨rfl, fun h => Except.noConfusion h⟩

/-- C9 (amended): when the document is empty or does not parse as a
sequence, `parse_playbook` returns the empty result rather than throwing,
so the caller skips the descriptor; but a non-empty sequence whose first
element is not a mapping raises AttributeError instead (the caller catches
it and counts the file as failed). -/
theorem c9_empty_result (doc : Yaml) (path : String) :
    ((∀ y ys, doc ≠ Yaml.list (y :: ys)) → parse_playbook doc path = Except.ok none) ∧
    (∀ y ys, doc = Yaml.list (y :: ys) → (∀ kvs2, y ≠ Yaml.map kvs2) →
      parse_playbook doc path = Except.error "AttributeError: object has no attribute get") := by
  constructor
  · intro h
    cases doc with
    | list xs =>
        cases xs with
        | nil => rfl
        | cons y ys => exact absurd rfl (h y ys)
    | null => rfl
    | bool b => rfl
    | int n => rfl
    | str s => rfl
    | map kvs => rfl
  · intro y ys hd hm
    subst hd
    cases y with
    | map kvs2 => exact absurd rfl (hm kvs2)
    | null => rfl
    | bool b => rfl
    | int n => rfl
    | str s => rfl
    | list zs => rfl

/-- Witness for C9 (amended): a mapping document yields the empty result,
and a sequence starting with a number raises. -/
theorem c9_empty_result_witness :
    parse_playbook (Yaml.map [("a", Yaml.int 1)]) "p.yaml" = Except.ok none ∧
    parse_playbook (Yaml.list [Yaml.int 3]) "q.yaml" =
      Except.error "AttributeError: object has no attribute get" := by
  constructor
  · exact (c9_empty_result (Yaml.map [("a", Yaml.int 1)]) "p.yaml").1
      (fun y ys h => Yaml.noConfusion h)
  · exact (c9_empty_result (Yaml.list [Yaml.int 3]) "q.yaml").2 (Yaml.int 3) [] rfl
      (fun kvs2 h => Yaml.noConfusion h)

theorem associate_credentials_templates (lk : Nat → Int → Bool) (tid : Nat) :
    ∀ (creds : List Int) (s : RemoteState),
      (associate_credentials lk s tid creds).templates = s.templates := by
  intro creds
  induction creds with
  | nil => exact fun s => rfl
  | cons c cs ih =>
      intro s
      have hstep : associate_credentials lk s tid (c :: cs) =
          associate_credentials lk
            (if lk tid c then { s with links := s.links ++ [(tid, c)] } else s) tid cs := rfl
      rw [hstep, ih]
      by_cases hc : lk tid c <;> simp [hc]

theorem associate_credentials_nextId (lk : Nat → Int → Bool) (tid : Nat) :
    ∀ (creds : List Int) (s : RemoteState),
      (associate_credentials lk s tid creds).nextId = s.nextId := by
  intro creds
  induction creds with
  | nil => exact fun s => rfl
  | cons c cs ih =>
      intro s
      have hstep : associate_credentials lk s tid (c :: cs) =
          associate_credentials lk
            (if lk tid c then { s with links := s.links ++ [(tid, c)] } else s) tid cs := rfl
      rw [hstep, ih]
      by_cases hc : lk tid c <;> simp [hc]

theorem associate_credentials_links_mono (lk : Nat → Int → Bool) (tid : Nat) :
    ∀ (creds : List Int) (s : RemoteState) (x : Nat × Int),
      x ∈ s.links → x ∈ (associate_credentials lk s tid creds).links := by
  intro creds
  induction creds with
  | nil => exact fun s x hx => hx
  | cons c cs ih =>
      intro s x hx
      have hstep : associate_credentials lk s tid (c :: cs) =
          associate_credentials lk
            (if lk tid c then { s with links := s.links ++ [(tid, c)] } else s) tid cs := rfl
      rw [hstep]
      apply ih
      by_cases hc : lk tid c <;> simp [hc, hx]

theorem associate_credentials_links_mem (lk : Nat → Int → Bool) (tid : Nat) :
    ∀ (creds : List Int) (s : RemoteState) (c : Int), c ∈ creds → lk tid c = true →
      (tid, c) ∈ (associate_credentials lk s tid creds).links := by
  intro creds
  induction creds with
  | nil => intro s c hc; exact absurd hc (List.not_mem_nil c)
  | cons c0 cs ih =>
      intro s c hc hl
      have hstep : associate_credentials lk s tid (c0 :: cs) =
          associate_credentials lk
            (if lk tid c0 then { s with links := s.links ++ [(tid, c0)] } else s) tid cs := rfl
      rw [hstep]
      rcases List.mem_cons.mp hc with he | hm
      · subst he
        apply associate_credentials_links_mono
        simp [hl]
      · exact ih _ c hm hl

theorem create_or_update_of_find_none (lk : Nat → Int → Bool) (s : RemoteState)
    (td : TemplateData) (h : s.findByName td.name = none) :
    (create_or_update_template lk s td).1.templates =
      s.templates ++ [{ id := s.nextId, data := { td with credentials := none } }] ∧
    (create_or_update_template lk s td).1.nextId = s.nextId + 1 ∧
    (create_or_update_template lk s td).2 =
      ({ id := s.nextId, data := { td with credentials := none } }, ReconcileAction.created) := by
  cases hcred : td.credentials with
  | none =>
      refine ⟨?_, ?_, ?_⟩ <;>
        simp [create_or_update_template, h, hcred, RemoteState.createTemplate]
  | some cs =>
      cases cs with
      | nil =>
          refine ⟨?_, ?_, ?_⟩ <;>
            simp [create_or_update_template, h, hcred, RemoteState.createTemplate]
      | cons c0 cs2 =>
          refine ⟨?_, ?_, ?_⟩ <;>
            simp [create_or_update_template, h, hcred, RemoteState.createTemplate,
                  associate_credentials_templates, associate_credentials_nextId]

theorem create_or_update_of_find_some (lk : Nat → Int → Bool) (s : RemoteState)
    (td : TemplateData) (ex : RemoteTemplate) (h : s.findByName td.name = some ex) :
    (create_or_update_template lk s td).1.templates =
      s.templates.map
        (fun t => if t.id = ex.id then { id := t.id, data := { td with credentials := none } } else t) ∧
    (create_or_update_template lk s td).1.nextId = s.nextId ∧
    (create_or_update_template lk s td).2 =
      ({ id := ex.id, data := { td with credentials := none } }, ReconcileAction.updated) := by
  cases hcred : td.credentials with
  | none =>
      refine ⟨?_, ?_, ?_⟩ <;>
        simp [create_or_update_template, h, hcred, RemoteState.updateTemplate]
  | some cs =>
      cases cs with
      | nil =>
          refine ⟨?_, ?_, ?_⟩ <;>
            simp [create_or_update_template, h, hcred, RemoteState.updateTemplate]
      | cons c0 cs2 =>
          refine ⟨?_, ?_, ?_⟩ <;>
            simp [create_or_update_template, h, hcred, RemoteState.updateTemplate,
                  associate_credentials_templates, associate_credentials_nextId]

theorem findFirst_append_none {α : Type} (p : α → Bool) (l1 l2 : List α)
    (h : l1.find? p = none) : (l1 ++ l2).find? p = l2.find? p := by
  induction l1 with
  | nil => rfl
  | cons a l ih =>
      cases hpa : p a with
      | true => rw [List.find?_cons_of_pos _ hpa] at h; exact Option.noConfusion h
      | false =>
          have hnpa : ¬ p a = true := by simp [hpa]
          rw [List.find?_cons_of_neg _ hnpa] at h
          rw [List.cons_append, List.find?_cons_of_neg _ hnpa]
          exact ih h

/-- C2: for every descriptor whose parsed metadata has an empty name, the
main loop skips it before any remote interaction: the remote state and the
run summary are returned unchanged (nothing is created, updated or failed);
and whenever the loop does reach `build_template_data` (non-falsy name),
the built resource keeps the declared name, so the path-derived fallback is
never taken from the main loop. -/
theorem c2_empty_name_skipped (lk : Nat → Int → Bool) (cfg : Config) (s : RemoteState)
    (results : RunResults) (doc : Yaml) (path : String) (meta : PlaybookMeta)
    (hp : parse_playbook doc path = Except.ok (some meta)) :
    (meta.name = Yaml.str "" → process_playbook lk cfg s results doc path = (s, results)) ∧
    (meta.name.isFalsy = false → ∀ td, build_template_data meta cfg = Except.ok td →
      Yaml.str td.name = meta.name) := by
  constructor
  · intro he
    simp [process_playbook, hp, he, Yaml.isFalsy]
  · intro hf td hb
    obtain ⟨nm, hn⟩ := build_template_data_name_str meta cfg td hb
    have hne : nm ≠ "" := by
      rw [hn] at hf
      simpa [Yaml.isFalsy] using hf
    rw [hn, build_template_data_name meta cfg td nm hn hb, if_neg hne]

/-- Witness for C2: the nameless play in `c2doc` is skipped with remote
state and summary untouched, while the named play of `c3doc` reaches the
builder and keeps its declared name. -/
theorem c2_empty_name_skipped_witness :
    process_playbook lkAll cfg0 rs0 rr0 c2doc "x.yaml" = (rs0, rr0) ∧
    Yaml.str c3td.name = c3meta.name := by
  constructor
  · exact (c2_empty_name_skipped lkAll cfg0 rs0 rr0 c2doc "x.yaml"
      { name := Yaml.str "", hosts := Yaml.str "localhost", vars := Yaml.map [],
        filepath := "x.yaml" } rfl).1 rfl
  · exact (c2_empty_name_skipped lkAll cfg0 rs0 rr0 c3doc "flash_devices.yaml" c3meta rfl).2
      rfl c3td rfl

/-- C3 (code-bug evidence): against an empty remote, reconciliation takes
the create branch (the code prints "Creating new template"), exactly one
new resource is stored, yet the run summary counts it under updated and not
created, because main decides the action by re-querying get_template after
the create has already succeeded. -/
theorem c3_created_counted_as_updated :
    build_template_data c3meta cfg0 = Except.ok c3td ∧
    (create_or_update_template lkAll rs0 c3td).2.2 = ReconcileAction.created ∧
    (process_playbook lkAll cfg0 rs0 rr0 c3doc "flash_devices.yaml").1.templates.map
        (fun t => t.data.name) = ["Flash Devices"] ∧
    (process_playbook lkAll cfg0 rs0 rr0 c3doc "flash_devices.yaml").2 =
      { created := [], updated := ["Flash Devices"], failed := [] } :=
  ⟨rfl, rfl, rfl, rfl⟩

/-- C4: starting from a remote that does not hold the desired name, the
first reconcile stores the resource and the remote find now returns it;
running reconcile again with the unchanged desired resource takes the
update branch (action Updated) and creates no second resource (the stored
template count and the next fresh id are unchanged). -/
theorem c4_reconcile_idempotent (lk : Nat → Int → Bool) (s : RemoteState) (td : TemplateData)
    (h : s.findByName td.name = none) :
    ((create_or_update_template lk s td).1.findByName td.name =
      some { id := s.nextId, data := { td with credentials := none } }) ∧
    (create_or_update_template lk (create_or_update_template lk s td).1 td).2.2 =
      ReconcileAction.updated ∧
    (create_or_update_template lk (create_or_update_template lk s td).1 td).1.templates.length =
      (create_or_update_template lk s td).1.templates.length ∧
    (create_or_update_template lk (create_or_update_template lk s td).1 td).1.nextId =
      (create_or_update_template lk s td).1.nextId := by
  obtain ⟨ht1, hn1, hr1⟩ := create_or_update_of_find_none lk s td h
  have hfind : (create_or_update_template lk s td).1.findByName td.name =
      some { id := s.nextId, data := { td with credentials := none } } := by
    unfold RemoteState.findByName
    rw [ht1, findFirst_append_none _ _ _ h]
    simp [List.find?]
  obtain ⟨ht2, hn2, hr2⟩ := create_or_update_of_find_some lk _ td _ hfind
  refine ⟨hfind, ?_, ?_, ?_⟩
  · rw [hr2]
  · rw [ht2, List.length_map]
  · rw [hn2]

/-- Witness for C4 at the empty remote and the concrete resource `td4`. -/
theorem c4_reconcile_idempotent_witness :
    ((create_or_update_template lkAll rs0 td4).1.findByName td4.name =
      some { id := rs0.nextId, data := { td4 with credentials := none } }) ∧
    (create_or_update_template lkAll (create_or_update_template lkAll rs0 td4).1 td4).2.2 =
      ReconcileAction.updated ∧
    (create_or_update_template lkAll (create_or_update_template lkAll rs0 td4).1 td4).1.templates.length =
      (create_or_update_template lkAll rs0 td4).1.templates.length ∧
    (create_or_update_template lkAll (create_or_update_template lkAll rs0 td4).1 td4).1.nextId =
      (create_or_update_template lkAll rs0 td4).1.nextId :=
  c4_reconcile_idempotent lkAll rs0 td4 rfl

theorem create_or_update_templates_link_indep (lk lk2 : Nat → Int → Bool) (s : RemoteState)
    (td : TemplateData) :
    (create_or_update_template lk s td).1.templates =
      (create_or_update_template lk2 s td).1.templates := by
  cases hf : s.findByName td.name with
  | none => rw [(create_or_update_of_find_none lk s td hf).1,
                (create_or_update_of_find_none lk2 s td hf).1]
  | some ex => rw [(create_or_update_of_find_some lk s td ex hf).1,
                   (create_or_update_of_find_some lk2 s td ex hf).1]

theorem create_or_update_result_link_indep (lk lk2 : Nat → Int → Bool) (s : RemoteState)
    (td : TemplateData) :
    (create_or_update_template lk s td).2 = (create_or_update_template lk2 s td).2 := by
  cases hf : s.findByName td.name with
  | none => rw [(create_or_update_of_find_none lk s td hf).2.2,
                (create_or_update_of_find_none lk2 s td hf).2.2]
  | some ex => rw [(create_or_update_of_find_some lk s td ex hf).2.2,
                   (create_or_update_of_find_some lk2 s td ex hf).2.2]

theorem create_or_update_links_mem (lk : Nat → Int → Bool) (s : RemoteState) (td : TemplateData)
    (c : Int) (hc : c ∈ td.credentials.getD [])
    (hl : lk (create_or_update_template lk s td).2.1.id c = true) :
    ((create_or_update_template lk s td).2.1.id, c) ∈
      (create_or_update_template lk s td).1.links := by
  cases hcred : td.credentials with
  | none => rw [hcred] at hc; exact absurd hc (List.not_mem_nil c)
  | some creds =>
      rw [hcred, Option.getD_some] at hc
      cases creds with
      | nil => exact absurd hc (List.not_mem_nil c)
      | cons c0 cs =>
          cases hf : s.findByName td.name with
          | some ex =>
              have hred : create_or_update_template lk s td =
                  (associate_credentials lk
                      (s.updateTemplate ex.id { td with credentials := none }).1 ex.id (c0 :: cs),
                   (s.updateTemplate ex.id { td with credentials := none }).2,
                   ReconcileAction.updated) := by
                simp [create_or_update_template, hf, hcred]
              rw [hred] at hl ⊢
              exact associate_credentials_links_mem lk ex.id (c0 :: cs) _ c hc hl
          | none =>
              have hred : create_or_update_template lk s td =
                  (associate_credentials lk
                      (s.createTemplate { td with credentials := none }).1
                      (s.createTemplate { td with credentials := none }).2.id (c0 :: cs),
                   (s.createTemplate { td with credentials := none }).2,
                   ReconcileAction.created) := by
                simp [create_or_update_template, hf, hcred]
              rw [hred] at hl ⊢
              exact associate_credentials_links_mem lk _ (c0 :: cs) _ c hc hl

theorem create_or_update_stored_credentials_none (lk : Nat → Int → Bool) (s : RemoteState)
    (td : TemplateData) (hinv : ∀ t ∈ s.templates, t.data.credentials = none) :
    ∀ t ∈ (create_or_update_template lk s td).1.templates, t.data.credentials = none := by
  intro t ht
  cases hf : s.findByName td.name with
  | none =>
      rw [(create_or_update_of_find_none lk s td hf).1] at ht
      rcases List.mem_append.mp ht with h1 | h2
      · exact hinv t h1
      · rw [List.mem_singleton] at h2
        subst h2
        rfl
  | some ex =>
      rw [(create_or_update_of_find_some lk s td ex hf).1] at ht
      rcases List.mem_map.mp ht with ⟨t0, ht0, heq⟩
      by_cases hid : t0.id = ex.id
      · rw [if_pos hid] at heq
        subst heq
        rfl
      · rw [if_neg hid] at heq
        subst heq
        exact hinv t0 ht0

theorem process_results_link_indep (lk lk2 : Nat → Int → Bool) (cfg : Config) (s : RemoteState)
    (results : RunResults) (doc : Yaml) (path : String) :
    (process_playbook lk cfg s results doc path).2 =
      (process_playbook lk2 cfg s results doc path).2 := by
  unfold process_playbook
  cases hp : parse_playbook doc path with
  | error e => rfl
  | ok om =>
      cases om with
      | none => rfl
      | some meta =>
          cases hfal : meta.name.isFalsy with
          | true => simp [hfal]
          | false =>
              simp only [hfal]
              cases hb : build_template_data meta cfg with
              | error e => rfl
              | ok td =>
                  have hid : (create_or_update_template lk s td).2.1.id =
                      (create_or_update_template lk2 s td).2.1.id := by
                    rw [create_or_update_result_link_indep lk lk2 s td]
                  have hfind : (create_or_update_template lk s td).1.findByName td.name =
                      (create_or_update_template lk2 s td).1.findByName td.name := by
                    unfold RemoteState.findByName
                    rw [create_or_update_templates_link_indep lk lk2 s td]
                  simp only [hb]
                  rw [hid, hfind]
                  split_ifs <;> rfl

/-- C5: credential references are removed from the payload before the
create/update call (the returned resource and every stored template carry
no credentials field), each credential whose link succeeds is associated
afterwards one by one, and link failures change neither the stored
templates, the returned resource and action, nor the run summary — in
particular a link failure never causes the resource to be counted as
failed. -/
theorem c5_credentials_best_effort (lk lk2 : Nat → Int → Bool) (s : RemoteState)
    (td : TemplateData) (cfg : Config) (results : RunResults) (doc : Yaml) (path : String) :
    ((create_or_update_template lk s td).2.1.data.credentials = none) ∧
    ((∀ t ∈ s.templates, t.data.credentials = none) →
      ∀ t ∈ (create_or_update_template lk s td).1.templates, t.data.credentials = none) ∧
    ((create_or_update_template lk s td).1.templates =
      (create_or_update_template lk2 s td).1.templates) ∧
    ((create_or_update_template lk s td).2 = (create_or_update_template lk2 s td).2) ∧
    (∀ c ∈ td.credentials.getD [], lk (create_or_update_template lk s td).2.1.id c = true →
      ((create_or_update_template lk s td).2.1.id, c) ∈
        (create_or_update_template lk s td).1.links) ∧
    ((process_playbook lk cfg s results doc path).2 =
      (process_playbook lk2 cfg s results doc path).2) := by
  refine ⟨?_, create_or_update_stored_credentials_none lk s td,
          create_or_update_templates_link_indep lk lk2 s td,
          create_or_update_result_link_indep lk lk2 s td,
          fun c hc hl => create_or_update_links_mem lk s td c hc hl,
          process_results_link_indep lk lk2 cfg s results doc path⟩
  cases hf : s.findByName td.name with
  | none => rw [(create_or_update_of_find_none lk s td hf).2.2]
  | some ex => rw [(create_or_update_of_find_some lk s td ex hf).2.2]

/-- Witness for C5: with credential 5 failing and credential 7 succeeding,
the payload is stored without credentials, credential 7 ends up linked, and
the stored templates and run summary equal the all-links-succeed run. -/
theorem c5_credentials_best_effort_witness :
    ((create_or_update_template lkFail5 rs0 td4).2.1.data.credentials = none) ∧
    (∀ t ∈ (create_or_update_template lkFail5 rs0 td4).1.templates,
      t.data.credentials = none) ∧
    ((create_or_update_template lkFail5 rs0 td4).1.templates =
      (create_or_update_template lkAll rs0 td4).1.templates) ∧
    (((create_or_update_template lkFail5 rs0 td4).2.1.id, (7 : Int)) ∈
      (create_or_update_template lkFail5 rs0 td4).1.links) ∧
    ((process_playbook lkFail5 cfg0 rs0 rr0 c3doc "flash_devices.yaml").2 =
      (process_playbook lkAll cfg0 rs0 rr0 c3doc "flash_devices.yaml").2) := by
  have h := c5_credentials_best_effort lkFail5 lkAll rs0 td4 cfg0 rr0 c3doc "flash_devices.yaml"
  refine ⟨h.1, h.2.1 ?_, h.2.2.1, h.2.2.2.2.1 7 ?_ ?_, h.2.2.2.2.2⟩
  · intro t ht
    exact absurd ht (List.not_mem_nil t)
  · decide
  · rfl

/-- C10: for every applications mapping, the survey builder produces
exactly one question, bound to variable app_name, required, of type
multiplechoice, whose choices are exactly the application keys in
lexicographic (case-sensitive, codepoint) order — so the output is the same
for any input ordering of the keys — and an empty applications mapping
yields an empty choice list rather than an error. -/
theorem c10_survey_spec (applications : List (String × Yaml)) (q : SurveyQuestion)
    (h : (build_survey_spec applications).spec = [q]) :
    (build_survey_spec applications).spec.length = 1 ∧
    q.variableName = "app_name" ∧ q.required = true ∧ q.qtype = "multiplechoice" ∧
    List.Sorted (· ≤ ·) q.choices ∧ q.choices.Perm (applications.map Prod.fst) ∧
    (applications = [] → q.choices = []) ∧
    (∀ (apps2 : List (String × Yaml)) (q2 : SurveyQuestion),
      (build_survey_spec apps2).spec = [q2] →
      (apps2.map Prod.fst).Perm (applications.map Prod.fst) → q2.choices = q.choices) := by
  rw [build_survey_spec] at h
  injection h with h hnil
  subst h
  refine ⟨rfl, rfl, rfl, rfl, List.sorted_insertionSort _ _, List.perm_insertionSort _ _,
          ?_, ?_⟩
  · intro he
    subst he
    rfl
  · intro apps2 q2 h2 hperm
    rw [build_survey_spec] at h2
    injection h2 with h2 hnil2
    subst h2
    exact List.eq_of_perm_of_sorted
      ((List.perm_insertionSort _ _).trans (hperm.trans (List.perm_insertionSort _ _).symm))
      (List.sorted_insertionSort _ _) (List.sorted_insertionSort _ _)

/-- Witness for C10: the inventory `zeta, alpha` yields the sorted choices
`alpha, zeta`, and the empty inventory yields the empty choice list. -/
theorem c10_survey_spec_witness :
    List.Sorted (· ≤ ·) c10q.choices ∧
    c10q.choices.Perm ["zeta", "alpha"] ∧
    c10qe.choices = [] := by
  have hsort : List.insertionSort (· ≤ ·) ["zeta", "alpha"] = ["alpha", "zeta"] := by
    simp [List.insertionSort, List.orderedInsert]
    decide
  have h0 : (build_survey_spec [("zeta", Yaml.null), ("alpha", Yaml.null)]).spec = [c10q] := by
    simp only [build_survey_spec]
    rw [show (([("zeta", Yaml.null), ("alpha", Yaml.null)] : List (String × Yaml)).map Prod.fst) =
        ["zeta", "alpha"] from rfl, hsort]
    rfl
  have h1 := c10_survey_spec [("zeta", Yaml.null), ("alpha", Yaml.null)] c10q h0
  have h2 := c10_survey_spec [] c10qe rfl
  exact ⟨h1.2.2.2.2.1, h1.2.2.2.2.2.1, h2.2.2.2.2.2.2.1 rfl⟩
